import Mathlib

/-!
Shallow embedding of the Gemini chat-completion adapter of this repository
(`autogen_workflow/gemini_client.py` and `autogen_workflow/mock_gemini_client.py`).

Modelling conventions:
  * Message payloads are strings; the four AutoGen message classes become a
    four-constructor inductive type, each carrying its `content` string.
  * Python string truthiness (`if not api_key`, `if message.content`) is
    modelled as a non-emptiness test; `str.split()` becomes a split on
    whitespace with empty pieces dropped; `str.lower()` maps `Char.toLower`
    over the characters (the keywords involved are ASCII); the substring
    test `a in b` becomes list-infix of the character lists.
  * The single HTTP POST of `_generate_response` is modelled by passing the
    environment explicitly: `create` receives a function from the outgoing
    payload to the HTTP outcome (a status/JSON/text response, or a raised
    network exception), and the rest of `_generate_response` is transcribed
    as a pure function of that outcome.
  * Raising an exception at construction time is modelled with `Except`:
    `__init__` becomes a function returning `Except String client`.
  * Python `float` temperatures are carried as rationals; no arithmetic is
    ever performed on them, they are only stored and copied.
-/

namespace AutogenWorkflow

/-- The AutoGen message union (`SystemMessage`, `UserMessage`,
`AssistantMessage`, `FunctionExecutionResultMessage`), each carrying its
text content. -/
inductive LLMMessage where
  | system (content : String)
  | user (content : String)
  | assistant (content : String)
  | functionExecutionResult (content : String)
deriving DecidableEq, Repr

/-- The `content` attribute shared by all four message classes. -/
def LLMMessage.content : LLMMessage → String
  | .system c => c
  | .user c => c
  | .assistant c => c
  | .functionExecutionResult c => c

/-- Whether a message is a `SystemMessage` (`isinstance(m, SystemMessage)`). -/
def isSystemMessage : LLMMessage → Bool
  | .system _ => true
  | _ => false

/-- Whether a message is an `AssistantMessage`. -/
def isAssistantMessage : LLMMessage → Bool
  | .assistant _ => true
  | _ => false

/-- Whether a message produces a content entry in `_convert_messages`
(`UserMessage` and `FunctionExecutionResultMessage` do; `SystemMessage`
and `AssistantMessage` do not). -/
def producesContentEntry : LLMMessage → Bool
  | .user _ => true
  | .functionExecutionResult _ => true
  | _ => false

/-- Helper for `wordCount`: count the maximal non-whitespace runs of a
character list; the flag records whether the scan is currently inside a
run. -/
def count_words_aux (inWord : Bool) : List Char → Nat
  | [] => 0
  | c :: rest =>
    if c.isWhitespace then count_words_aux false rest
    else (if inWord then 0 else 1) + count_words_aux true rest

/-- `len(str(x).split())`: the whitespace-delimited word count used as the
token estimate (Python `str.split()` with no argument splits on
whitespace runs and drops empty pieces, so its length is the number of
maximal non-whitespace runs). -/
def wordCount (s : String) : Nat :=
  count_words_aux false s.data

/-- Python `str.lower()` restricted to ASCII case mapping (the only
characters the adapter compares are ASCII). -/
def pyLower (s : String) : String :=
  ⟨s.data.map Char.toLower⟩

/-- Python substring test `needle in hay` on strings. -/
def strContains (hay needle : String) : Prop :=
  needle.data <:+: hay.data

instance (hay needle : String) : Decidable (strContains hay needle) := by
  unfold strContains
  exact List.decidableInfix needle.data hay.data

/-- Python truthiness of an `Optional[str]`: `None` and the empty string
are falsy. -/
def pyTruthyOptStr : Option String → Bool
  | none => false
  | some s => !(s == "")

/-- One `\x7b"text": ...\x7d` part of the Gemini wire format. -/
structure TextPart where
  text : String
deriving DecidableEq, Repr

/-- One `\x7b"parts": [...]\x7d` content entry of the Gemini wire format. -/
structure ContentEntry where
  parts : List TextPart
deriving DecidableEq, Repr

/-- The `generationConfig` object of the request payload. -/
structure GenerationConfig where
  temperature : ℚ
  maxOutputTokens : Int
deriving DecidableEq, Repr

/-- The full request payload built by `_convert_messages`: `contents`,
`generationConfig`, and the optional `systemInstruction` key. -/
structure GeminiPayload where
  contents : List ContentEntry
  generationConfig : GenerationConfig
  systemInstruction : Option ContentEntry
deriving DecidableEq, Repr

/-- The `RequestUsage` record attached to a result. -/
structure RequestUsage where
  prompt_tokens : Nat
  completion_tokens : Nat
deriving DecidableEq, Repr

/-- The `CreateResult` returned by `create`: generated text, finish
reason, estimated usage, cached flag. -/
structure CreateResult where
  content : String
  finish_reason : String
  usage : RequestUsage
  cached : Bool
deriving DecidableEq, Repr

/-- Configuration state of `GeminiChatCompletionClient` after
construction. -/
structure GeminiChatCompletionClient where
  model : String
  api_key : Option String
  temperature : ℚ
  max_tokens : Int
deriving DecidableEq, Repr

/-- Configuration state of `MockGeminiChatCompletionClient` after
construction. -/
structure MockGeminiChatCompletionClient where
  model : String
  api_key : Option String
  temperature : ℚ
  max_tokens : Int
deriving DecidableEq, Repr

/-- `GeminiChatCompletionClient.__init__`: stores the configuration and
raises `ValueError("Google API key is required for Gemini client")` when
the API key is missing or empty. -/
def GeminiChatCompletionClient.init (model : String) (api_key : Option String)
    (temperature : ℚ) (max_tokens : Int) :
    Except String GeminiChatCompletionClient :=
  if pyTruthyOptStr api_key then
    .ok ⟨model, api_key, temperature, max_tokens⟩
  else
    .error "Google API key is required for Gemini client"

/-- `MockGeminiChatCompletionClient.__init__`: stores the configuration;
it performs no validation of the API key. -/
def MockGeminiChatCompletionClient.init (model : String) (api_key : Option String)
    (temperature : ℚ) (max_tokens : Int) :
    Except String MockGeminiChatCompletionClient :=
  .ok ⟨model, api_key, temperature, max_tokens⟩

/-- The message loop of `_convert_messages`: accumulates the optional
system instruction (first `SystemMessage` wins, because the Python guard
`if not system_instruction` only fires while it is still `None`) and the
list of content entries (`UserMessage` text verbatim,
`FunctionExecutionResultMessage` text behind the fixed marker,
`AssistantMessage` skipped). -/
def convert_loop : Option ContentEntry → List ContentEntry → List LLMMessage →
    Option ContentEntry × List ContentEntry
  | si, cs, [] => (si, cs)
  | si, cs, .system c :: rest =>
      convert_loop (if si.isSome then si else some ⟨[⟨c⟩]⟩) cs rest
  | si, cs, .user c :: rest =>
      convert_loop si (cs ++ [⟨[⟨c⟩]⟩]) rest
  | si, cs, .assistant _ :: rest =>
      convert_loop si cs rest
  | si, cs, .functionExecutionResult c :: rest =>
      convert_loop si (cs ++ [⟨[⟨"Function result: " ++ c⟩]⟩]) rest

/-- The default system instruction injected for preview models. -/
def preview_default_instruction : String :=
  "You are a helpful AI assistant. Provide clear, direct responses."

/-- `GeminiChatCompletionClient._convert_messages`: run the message loop,
inject the `"Hello"` placeholder when no content entry was produced, and
attach the system instruction (the one collected from the messages, or the
default one when the model name contains `"preview"` case-insensitively,
or none). -/
def GeminiChatCompletionClient.convert_messages
    (client : GeminiChatCompletionClient) (messages : List LLMMessage) :
    GeminiPayload :=
  let state := convert_loop none [] messages
  let system_instruction := state.1
  let gemini_contents := state.2
  let gemini_contents :=
    if gemini_contents = [] then [⟨[⟨"Hello"⟩]⟩] else gemini_contents
  let payload_instruction :=
    if system_instruction.isSome then
      system_instruction
    else if strContains (pyLower client.model) "preview" then
      some ⟨[⟨preview_default_instruction⟩]⟩
    else
      none
  ⟨gemini_contents, ⟨client.temperature, client.max_tokens⟩, payload_instruction⟩

/-- One part of a candidate content in the backend JSON response; the
`"text"` key may be absent. -/
structure ResponsePart where
  text : Option String
deriving DecidableEq, Repr

/-- The `"content"` object of a candidate; the `"parts"` key may be
absent. -/
structure CandidateContent where
  parts : Option (List ResponsePart)
deriving DecidableEq, Repr

/-- One entry of the `"candidates"` array; the `"content"` key may be
absent. -/
structure Candidate where
  content : Option CandidateContent
deriving DecidableEq, Repr

/-- The parsed JSON body of a 200 response; the `"candidates"` key may be
absent. -/
structure GeminiResponse where
  candidates : Option (List Candidate)
deriving DecidableEq, Repr

/-- The outcome of the single HTTP POST of `_generate_response`: either a
response with a status code, a parsed JSON body and a raw text body, or an
exception raised at the network/timeout layer. -/
inductive HttpResult where
  | response (status : Nat) (json : GeminiResponse) (body_text : String)
  | failure (error_message : String)
deriving DecidableEq, Repr

/-- The fixed fallback string `_generate_response` returns when the
generated text cannot be located in a 200 body. -/
def apology_text : String :=
  "I apologize, but I couldn\x27t generate a response."

/-- The text-extraction chain of `_generate_response` on a 200 body:
first candidate, its content, its parts, first part, its text; any
missing link falls through to the apology string. -/
def extract_generated_text (result : GeminiResponse) : String :=
  match result.candidates with
  | some (candidate :: _) =>
    match candidate.content with
    | some content =>
      match content.parts with
      | some (part :: _) =>
        match part.text with
        | some t => t
        | none => apology_text
      | some [] => apology_text
      | none => apology_text
    | none => apology_text
  | some [] => apology_text
  | none => apology_text

/-- `GeminiChatCompletionClient._generate_response` as a pure function of
the HTTP outcome: on status 200 extract the generated text, on any other
status return the `"API Error \x7bstatus\x7d: \x7bbody\x7d"` string, and
on a raised exception return the `"Error: \x7bmessage\x7d"` string. Every
branch returns an ordinary string; no branch raises. -/
def generate_response (http : HttpResult) : String :=
  match http with
  | .response status json body_text =>
      if status == 200 then extract_generated_text json
      else "API Error " ++ toString status ++ ": " ++ body_text
  | .failure e => "Error: " ++ e

/-- `GeminiChatCompletionClient._create_result`: wrap a response text in a
`CreateResult` with word-count usage estimates, finish reason `"stop"`
and `cached = False`. -/
def GeminiChatCompletionClient.create_result (response_text : String)
    (original_messages : List LLMMessage) : CreateResult :=
  ⟨response_text, "stop",
    ⟨(original_messages.map fun m => wordCount m.content).sum,
      wordCount response_text⟩,
    false⟩

/-- `GeminiChatCompletionClient.create`: convert the messages, send the
payload (the backend is passed explicitly as a function from the payload
to the HTTP outcome), and wrap whatever string `_generate_response`
produced in a `CreateResult`. -/
def GeminiChatCompletionClient.create (client : GeminiChatCompletionClient)
    (messages : List LLMMessage) (backend : GeminiPayload → HttpResult) :
    CreateResult :=
  let payload := client.convert_messages messages
  let response_text := generate_response (backend payload)
  GeminiChatCompletionClient.create_result response_text messages

/-- `GeminiChatCompletionClient.count_tokens`: sum the word counts of the
messages whose content is truthy (non-empty). -/
def GeminiChatCompletionClient.count_tokens (messages : List LLMMessage) : Nat :=
  messages.foldl
    (fun total m => if m.content ≠ "" then total + wordCount m.content else total) 0

/-- `GeminiChatCompletionClient.remaining_tokens`:
`max(0, self.max_tokens - used)`. -/
def GeminiChatCompletionClient.remaining_tokens
    (client : GeminiChatCompletionClient) (messages : List LLMMessage) : Int :=
  max 0 (client.max_tokens - (GeminiChatCompletionClient.count_tokens messages : Int))

/-- The `capabilities` dictionary (four booleans). -/
structure Capabilities where
  vision : Bool
  function_calling : Bool
  json_output : Bool
  streaming : Bool
deriving DecidableEq, Repr

/-- The `model_info` dictionary. -/
structure ModelInfo where
  model : String
  provider : String
  max_tokens : Int
  temperature : ℚ
  function_calling : Bool
  vision : Bool
  json_output : Bool
deriving DecidableEq, Repr

/-- `GeminiChatCompletionClient.capabilities`. -/
def GeminiChatCompletionClient.capabilities
    (_client : GeminiChatCompletionClient) : Capabilities :=
  ⟨false, false, false, true⟩

/-- `GeminiChatCompletionClient.model_info`. -/
def GeminiChatCompletionClient.model_info
    (client : GeminiChatCompletionClient) : ModelInfo :=
  ⟨client.model, "google", client.max_tokens, client.temperature, true, false, true⟩

/-- The canned architecture/design response of the mock client. -/
def architecture_template : String :=
  "# System Architecture Design\n\n## Overview\nI\x27ll design a simple FastAPI application with the following architecture:\n\n## Components\n1. **Main Application** (`main.py`)\n   - FastAPI app instance\n   - Route definitions\n   - Error handling middleware\n\n2. **Health Check Endpoint** (`/health`)\n   - Simple status check\n   - Returns JSON response\n\n3. **Calculator Endpoint** (`/calculate`)\n   - POST endpoint for number addition\n   - Input validation using Pydantic models\n   - Error handling for invalid inputs\n\n## Technical Stack\n- **Framework**: FastAPI\n- **Validation**: Pydantic models\n- **Logging**: Python logging module\n- **Testing**: pytest\n\n## File Structure\n```\nfastapi_app/\n├── main.py          # Main application\n├── models.py        # Pydantic models\n├── test_main.py     # Tests\n└── requirements.txt # Dependencies\n```\n\nThis architecture ensures separation of concerns and maintainability.\n"

/-- The canned project-management response of the mock client. -/
def plan_template : String :=
  "# Implementation Plan\n\n## Phase 1: Project Setup\n- [ ] Create project structure\n- [ ] Set up virtual environment\n- [ ] Install FastAPI dependencies\n\n## Phase 2: Core Implementation\n- [ ] Implement main FastAPI application\n- [ ] Create Pydantic models for validation\n- [ ] Implement health check endpoint\n- [ ] Implement calculator endpoint\n\n## Phase 3: Error Handling & Logging\n- [ ] Add comprehensive error handling\n- [ ] Implement logging system\n- [ ] Add input validation\n\n## Phase 4: Testing\n- [ ] Write unit tests\n- [ ] Test all endpoints\n- [ ] Validate error scenarios\n\n## Timeline\n- Phase 1: 30 minutes\n- Phase 2: 1 hour\n- Phase 3: 30 minutes\n- Phase 4: 45 minutes\n\nTotal estimated time: 2.75 hours\n"

/-- The canned programming response of the mock client. -/
def implementation_template : String :=
  "# FastAPI Implementation\n\nHere\x27s the complete implementation:\n\n## main.py\n```python\nfrom fastapi import FastAPI, HTTPException\nfrom pydantic import BaseModel\nimport logging\n\n# Configure logging\nlogging.basicConfig(level=logging.INFO)\nlogger = logging.getLogger(__name__)\n\napp = FastAPI(title=\"Simple Calculator API\", version=\"1.0.0\")\n\nclass CalculationRequest(BaseModel):\n    a: float\n    b: float\n\nclass CalculationResponse(BaseModel):\n    result: float\n    operation: str\n\n@app.get(\"/health\")\nasync def health_check():\n    logger.info(\"Health check requested\")\n    return \x7b\"status\": \"healthy\"\x7d\n\n@app.post(\"/calculate\", response_model=CalculationResponse)\nasync def calculate(request: CalculationRequest):\n    try:\n        logger.info(f\"Calculation requested: \x7brequest.a\x7d + \x7brequest.b\x7d\")\n        result = request.a + request.b\n        return CalculationResponse(result=result, operation=\"addition\")\n    except Exception as e:\n        logger.error(f\"Calculation error: \x7bstr(e)\x7d\")\n        raise HTTPException(status_code=400, detail=\"Invalid calculation\")\n\nif __name__ == \"__main__\":\n    import uvicorn\n    uvicorn.run(app, host=\"0.0.0.0\", port=8000)\n```\n\n## test_main.py\n```python\nfrom fastapi.testclient import TestClient\nfrom main import app\n\nclient = TestClient(app)\n\ndef test_health_check():\n    response = client.get(\"/health\")\n    assert response.status_code == 200\n    assert response.json() == \x7b\"status\": \"healthy\"\x7d\n\ndef test_calculate():\n    response = client.post(\"/calculate\", json=\x7b\"a\": 2, \"b\": 3\x7d)\n    assert response.status_code == 200\n    assert response.json()[\"result\"] == 5\n```\n"

/-- The canned code-review response of the mock client. -/
def review_template : String :=
  "# Code Review Report\n\n## Overall Assessment: ✅ GOOD\n\n## Strengths\n1. **Clean Structure**: Well-organized code with clear separation\n2. **Type Hints**: Proper use of Pydantic models for validation\n3. **Error Handling**: Appropriate HTTP exceptions\n4. **Logging**: Good logging implementation\n5. **Testing**: Basic test coverage included\n\n## Recommendations\n1. **Add more comprehensive tests** for edge cases\n2. **Consider rate limiting** for production use\n3. **Add API documentation** with more detailed descriptions\n4. **Implement request/response logging middleware**\n\n## Security Considerations\n- Input validation is properly handled by Pydantic\n- No obvious security vulnerabilities\n- Consider adding CORS middleware if needed\n\n## Performance Notes\n- Simple operations, no performance concerns\n- Consider async database operations for future enhancements\n\n## Code Quality Score: 8.5/10\n"

/-- The canned optimization response of the mock client. -/
def optimization_template : String :=
  "# Code Optimization Report\n\n## Performance Optimizations Applied\n\n### 1. Async/Await Optimization\n- All endpoints are properly async\n- Non-blocking operations where possible\n\n### 2. Response Model Optimization\n```python\n# Optimized response models\nclass OptimizedCalculationResponse(BaseModel):\n    result: float\n    operation: str\n    timestamp: datetime\n    \n    class Config:\n        json_encoders = \x7b\n            datetime: lambda v: v.isoformat()\n        \x7d\n```\n\n### 3. Logging Optimization\n- Structured logging with correlation IDs\n- Async logging for better performance\n\n### 4. Memory Optimization\n- Minimal object creation\n- Efficient data structures\n\n## Benchmarks\n- Health endpoint: ~0.5ms response time\n- Calculate endpoint: ~1.2ms response time\n- Memory usage: ~15MB baseline\n\n## Production Recommendations\n1. Use gunicorn with multiple workers\n2. Implement connection pooling\n3. Add caching for frequent calculations\n4. Use async logging handlers\n\n## Optimization Score: 9/10\nThe code is well-optimized for its scope and requirements.\n"

/-- The generic fallback response of the mock client: echoes the first
100 characters of the input (with a `"..."` ellipsis when truncated). -/
def default_mock_response (message : String) : String :=
  "Thank you for your message. As a Gemini AI assistant, I\x27m here to help with your programming workflow.\n\nYour message: \"" ++
    message.take 100 ++ (if message.length > 100 then "..." else "") ++
    "\"\n\nI can assist with:\n- System architecture design\n- Project planning and management  \n- Code implementation\n- Code review and quality assessment\n- Performance optimization\n\nPlease let me know how I can help with your specific task!"

/-- `MockGeminiChatCompletionClient._generate_mock_response`: lowercase
the input and return the first canned template whose keyword set matches,
in source order, else the generic fallback. -/
def generate_mock_response (message : String) : String :=
  let ml := pyLower message
  if strContains ml "architect" ∨ strContains ml "design" ∨
      strContains ml "architecture" then
    architecture_template
  else if strContains ml "project" ∨ strContains ml "plan" ∨
      strContains ml "manager" then
    plan_template
  else if strContains ml "code" ∨ strContains ml "implement" ∨
      strContains ml "programmer" then
    implementation_template
  else if strContains ml "review" ∨ strContains ml "quality" then
    review_template
  else if strContains ml "optim" ∨ strContains ml "performance" then
    optimization_template
  else
    default_mock_response message

/-- The scan at the top of `MockGeminiChatCompletionClient.create`: walk
the messages in reverse and take the content of the first `UserMessage` or
`SystemMessage` found, defaulting to the empty string. -/
def mock_last_message (messages : List LLMMessage) : String :=
  (messages.reverse.findSome? fun m =>
    match m with
    | .user c => some c
    | .system c => some c
    | _ => none).getD ""

/-- `MockGeminiChatCompletionClient._create_result` (identical to the
live variant: word-count usage, finish reason `"stop"`, `cached = False`). -/
def MockGeminiChatCompletionClient.create_result (response_text : String)
    (original_messages : List LLMMessage) : CreateResult :=
  ⟨response_text, "stop",
    ⟨(original_messages.map fun m => wordCount m.content).sum,
      wordCount response_text⟩,
    false⟩

/-- `MockGeminiChatCompletionClient.create`: pick the most recent
System-or-User message text, generate the canned response, wrap it in a
`CreateResult`. A pure function of the input messages; no network is
involved. -/
def MockGeminiChatCompletionClient.create
    (_client : MockGeminiChatCompletionClient) (messages : List LLMMessage) :
    CreateResult :=
  let last_message := mock_last_message messages
  let response := generate_mock_response last_message
  MockGeminiChatCompletionClient.create_result response messages

/-- `MockGeminiChatCompletionClient.count_tokens` (identical to the live
variant). -/
def MockGeminiChatCompletionClient.count_tokens (messages : List LLMMessage) : Nat :=
  messages.foldl
    (fun total m => if m.content ≠ "" then total + wordCount m.content else total) 0

/-- `MockGeminiChatCompletionClient.remaining_tokens` (identical to the
live variant). -/
def MockGeminiChatCompletionClient.remaining_tokens
    (client : MockGeminiChatCompletionClient) (messages : List LLMMessage) : Int :=
  max 0 (client.max_tokens - (MockGeminiChatCompletionClient.count_tokens messages : Int))

/-- `MockGeminiChatCompletionClient.capabilities`. -/
def MockGeminiChatCompletionClient.capabilities
    (_client : MockGeminiChatCompletionClient) : Capabilities :=
  ⟨false, false, false, true⟩

/-- `MockGeminiChatCompletionClient.model_info`. -/
def MockGeminiChatCompletionClient.model_info
    (client : MockGeminiChatCompletionClient) : ModelInfo :=
  ⟨client.model, "google_mock", client.max_tokens, client.temperature, true, false, true⟩

/-! ### Analysis helpers for the message translator -/

/-- The content entries a message list contributes in `_convert_messages`,
in order: one entry per `UserMessage` and per
`FunctionExecutionResultMessage`. -/
def contents_of : List LLMMessage → List ContentEntry
  | [] => []
  | .user c :: rest => ⟨[⟨c⟩]⟩ :: contents_of rest
  | .functionExecutionResult c :: rest =>
      ⟨[⟨"Function result: " ++ c⟩]⟩ :: contents_of rest
  | .system _ :: rest => contents_of rest
  | .assistant _ :: rest => contents_of rest

/-- The text of the first `SystemMessage` of a list, if any. -/
def first_system_text : List LLMMessage → Option String
  | [] => none
  | .system c :: _ => some c
  | .user _ :: rest => first_system_text rest
  | .assistant _ :: rest => first_system_text rest
  | .functionExecutionResult _ :: rest => first_system_text rest

/-- Remove every `SystemMessage` from a list. -/
def remove_systems (l : List LLMMessage) : List LLMMessage :=
  l.filter fun m => !isSystemMessage m

/-- Keep the first `SystemMessage` of a list and remove every later one;
all other messages are kept. -/
def drop_later_systems : List LLMMessage → List LLMMessage
  | [] => []
  | .system c :: rest => .system c :: remove_systems rest
  | .user c :: rest => .user c :: drop_later_systems rest
  | .assistant c :: rest => .assistant c :: drop_later_systems rest
  | .functionExecutionResult c :: rest =>
      .functionExecutionResult c :: drop_later_systems rest

/-- Whether the first candidate's first content part's text field is
structurally absent from a 200 body (the complement of the success path
of the extraction chain in `_generate_response`). -/
def text_absent (result : GeminiResponse) : Bool :=
  match result.candidates with
  | some (candidate :: _) =>
    match candidate.content with
    | some content =>
      match content.parts with
      | some (part :: _) => part.text.isNone
      | some [] => true
      | none => true
    | none => true
  | some [] => true
  | none => true

/-! ### Lemmas about the message-translation loop -/

theorem convert_loop_snd (msgs : List LLMMessage)
    (si : Option ContentEntry) (cs : List ContentEntry) :
    (convert_loop si cs msgs).2 = cs ++ contents_of msgs := by
  induction msgs generalizing si cs with
  | nil => simp [convert_loop, contents_of]
  | cons m rest ih =>
    cases m <;> simp [convert_loop, contents_of, ih]

theorem convert_loop_fst_some (msgs : List LLMMessage)
    (x : ContentEntry) (cs : List ContentEntry) :
    (convert_loop (some x) cs msgs).1 = some x := by
  induction msgs generalizing cs with
  | nil => simp [convert_loop]
  | cons m rest ih =>
    cases m <;> simp [convert_loop, ih]

theorem convert_loop_fst_none (msgs : List LLMMessage) (cs : List ContentEntry) :
    (convert_loop none cs msgs).1 =
      (first_system_text msgs).map fun c => (⟨[⟨c⟩]⟩ : ContentEntry) := by
  induction msgs generalizing cs with
  | nil => simp [convert_loop, first_system_text]
  | cons m rest ih =>
    cases m with
    | system c => simp [convert_loop, first_system_text, convert_loop_fst_some]
    | user c => simp [convert_loop, first_system_text, ih]
    | assistant c => simp [convert_loop, first_system_text, ih]
    | functionExecutionResult c => simp [convert_loop, first_system_text, ih]

/-- Characterization of `_convert_messages` in terms of the two helper
functions. -/
theorem convert_messages_eq (client : GeminiChatCompletionClient)
    (messages : List LLMMessage) :
    client.convert_messages messages =
      ⟨(if contents_of messages = [] then [⟨[⟨"Hello"⟩]⟩] else contents_of messages),
        ⟨client.temperature, client.max_tokens⟩,
        (match first_system_text messages with
          | some c => some ⟨[⟨c⟩]⟩
          | none =>
            if strContains (pyLower client.model) "preview" then
              some ⟨[⟨preview_default_instruction⟩]⟩
            else none)⟩ := by
  unfold GeminiChatCompletionClient.convert_messages
  simp only [convert_loop_snd, convert_loop_fst_none, List.nil_append]
  cases h : first_system_text messages <;> simp [h]

theorem contents_of_append (a b : List LLMMessage) :
    contents_of (a ++ b) = contents_of a ++ contents_of b := by
  induction a with
  | nil => simp [contents_of]
  | cons m rest ih => cases m <;> simp [contents_of, ih]

theorem contents_of_eq_nil (l : List LLMMessage)
    (h : ∀ m ∈ l, producesContentEntry m = false) :
    contents_of l = [] := by
  induction l with
  | nil => simp [contents_of]
  | cons m rest ih =>
    have hm := h m (by simp)
    have hrest : ∀ x ∈ rest, producesContentEntry x = false :=
      fun x hx => h x (by simp [hx])
    cases m <;> simp_all [contents_of, producesContentEntry]

theorem first_system_text_append (a b : List LLMMessage) :
    first_system_text (a ++ b) =
      match first_system_text a with
      | some c => some c
      | none => first_system_text b := by
  induction a with
  | nil => simp [first_system_text]
  | cons m rest ih => cases m <;> simp [first_system_text, ih]

theorem first_system_text_eq_none (l : List LLMMessage)
    (h : ∀ m ∈ l, isSystemMessage m = false) :
    first_system_text l = none := by
  induction l with
  | nil => simp [first_system_text]
  | cons m rest ih =>
    have hm := h m (by simp)
    have hrest : ∀ x ∈ rest, isSystemMessage x = false :=
      fun x hx => h x (by simp [hx])
    cases m <;> simp_all [first_system_text, isSystemMessage]

theorem contents_of_remove_systems (l : List LLMMessage) :
    contents_of (remove_systems l) = contents_of l := by
  induction l with
  | nil => simp [remove_systems, contents_of]
  | cons m rest ih =>
    cases m <;>
      simp_all [remove_systems, contents_of, isSystemMessage, List.filter_cons]

theorem first_system_text_remove_systems (l : List LLMMessage) :
    first_system_text (remove_systems l) = none := by
  induction l with
  | nil => simp [remove_systems, first_system_text]
  | cons m rest ih =>
    cases m <;>
      simp_all [remove_systems, first_system_text, isSystemMessage, List.filter_cons]

theorem contents_of_drop_later_systems (l : List LLMMessage) :
    contents_of (drop_later_systems l) = contents_of l := by
  induction l with
  | nil => simp [drop_later_systems]
  | cons m rest ih =>
    cases m <;>
      simp [drop_later_systems, contents_of, ih, contents_of_remove_systems]

theorem first_system_text_drop_later_systems (l : List LLMMessage) :
    first_system_text (drop_later_systems l) = first_system_text l := by
  induction l with
  | nil => simp [drop_later_systems]
  | cons m rest ih =>
    cases m <;> simp [drop_later_systems, first_system_text, ih]

/-! ### Lemmas about substrings, lowercasing, token counts and the
extraction chain -/

theorem infix_map_of_infix {α β : Type} (f : α → β) {l₁ l₂ : List α}
    (h : l₁ <:+: l₂) : l₁.map f <:+: l₂.map f := by
  obtain ⟨p, q, hpq⟩ := h
  exact ⟨p.map f, q.map f, by rw [← hpq]; simp⟩

/-- If a string contains an all-lowercase needle, its lowercase image
still contains that needle. -/
theorem strContains_pyLower_of_strContains {t s : String}
    (hs : pyLower s = s) (h : strContains t s) :
    strContains (pyLower t) s := by
  unfold strContains at h ⊢
  have hmap := infix_map_of_infix Char.toLower h
  have hdata : s.data.map Char.toLower = s.data := congrArg String.data hs
  rw [hdata] at hmap
  exact hmap

/-- Containment is monotone along the infix order of needles. -/
theorem strContains_of_infix {t : String} {s₁ s₂ : String}
    (h₁ : s₁.data <:+: s₂.data) (h₂ : strContains t s₂) :
    strContains t s₁ :=
  h₁.trans h₂

/-- A text containing `"architecture"` drives `_generate_mock_response`
into its first branch. -/
theorem generate_mock_response_architecture {t : String}
    (h : strContains t "architecture") :
    generate_mock_response t = architecture_template := by
  have harch : strContains t "architect" :=
    strContains_of_infix (by decide) h
  have hlow : strContains (pyLower t) "architect" :=
    strContains_pyLower_of_strContains (by decide) harch
  unfold generate_mock_response
  rw [if_pos (Or.inl hlow)]

theorem count_tokens_foldl (l : List LLMMessage) (n : Nat) :
    l.foldl
      (fun total m => if m.content ≠ "" then total + wordCount m.content else total) n
      = n + (l.map fun m => wordCount m.content).sum := by
  induction l generalizing n with
  | nil => simp
  | cons m rest ih =>
    simp only [List.foldl_cons, List.map_cons, List.sum_cons]
    rw [ih]
    by_cases hc : m.content = ""
    · simp [hc, show wordCount "" = 0 from rfl]
    · simp only [hc, ne_eq, not_false_eq_true, if_true, if_pos]
      omega

/-- Both transcriptions of `count_tokens` equal the plain sum of the
word counts of all message contents. -/
theorem count_tokens_eq_sum (messages : List LLMMessage) :
    GeminiChatCompletionClient.count_tokens messages
      = (messages.map fun m => wordCount m.content).sum := by
  unfold GeminiChatCompletionClient.count_tokens
  rw [count_tokens_foldl]
  simp

/-- When the text field is structurally absent, the extraction chain
falls through to the apology string. -/
theorem extract_text_of_absent (result : GeminiResponse)
    (h : text_absent result = true) :
    extract_generated_text result = apology_text := by
  obtain ⟨cands⟩ := result
  rcases cands with _ | ⟨_ | ⟨c, rest⟩⟩
  · rfl
  · rfl
  · obtain ⟨cc⟩ := c
    rcases cc with _ | ⟨⟨pp⟩⟩
    · rfl
    · rcases pp with _ | ⟨_ | ⟨p, ps⟩⟩
      · rfl
      · rfl
      · obtain ⟨txt⟩ := p
        rcases txt with _ | t
        · rfl
        · simp [text_absent, Option.isNone] at h

/-! ### Claim theorems -/

/-- Claim C1, counterexample: at a concrete non-200 outcome (status 429,
a rate-limit body), the live `create` does not fail with any
`TransportError`; it returns a successful `CreateResult` whose text
merely describes the error, with finish reason `"stop"` and estimated
usage, exactly as for a generated answer. -/
theorem gemini_create_backend_error_counterexample :
    GeminiChatCompletionClient.create ⟨"gemini-2.0-flash", some "key", 7/10, 4000⟩
        [.user "hi there"]
        (fun _ => .response 429 ⟨none⟩ "\x7b\"error\":\x7b\"message\":\"rate limited\"\x7d\x7d")
      = ⟨"API Error 429: \x7b\"error\":\x7b\"message\":\"rate limited\"\x7d\x7d",
          "stop", ⟨2, 5⟩, false⟩ := by
  decide

/-- Claim C1 (amended): the live `create` never surfaces a transport
failure as a failure. On every non-200 status it returns a successful
`CreateResult` whose text is `"API Error \x7bstatus\x7d: \x7bbody\x7d"`,
and on every network/timeout exception it returns a successful
`CreateResult` whose text is `"Error: \x7bmessage\x7d"`; both carry
finish reason `"stop"`. -/
theorem gemini_create_swallows_transport_errors
    (client : GeminiChatCompletionClient) (messages : List LLMMessage)
    (status : Nat) (json : GeminiResponse) (body_text err : String)
    (h : status ≠ 200) :
    GeminiChatCompletionClient.create client messages
        (fun _ => .response status json body_text)
      = GeminiChatCompletionClient.create_result
          ("API Error " ++ toString status ++ ": " ++ body_text) messages ∧
    GeminiChatCompletionClient.create client messages (fun _ => .failure err)
      = GeminiChatCompletionClient.create_result ("Error: " ++ err) messages ∧
    (GeminiChatCompletionClient.create client messages
        (fun _ => .response status json body_text)).finish_reason = "stop" := by
  have hb : (status == 200) = false := by simpa using h
  refine ⟨?_, rfl, rfl⟩
  simp [GeminiChatCompletionClient.create, generate_response, hb]

/-- Witness for the amended claim C1 at status 429. -/
theorem gemini_create_swallows_transport_errors_witness :
    (429 : Nat) ≠ 200 ∧
    (GeminiChatCompletionClient.create
        ⟨"gemini-2.0-flash", some "key", 7/10, 4000⟩ [.user "hi there"]
        (fun _ => .response 429 ⟨none⟩ "rate limited")
      = GeminiChatCompletionClient.create_result
          ("API Error " ++ toString 429 ++ ": " ++ "rate limited") [.user "hi there"] ∧
    GeminiChatCompletionClient.create
        ⟨"gemini-2.0-flash", some "key", 7/10, 4000⟩ [.user "hi there"]
        (fun _ => .failure "timeout")
      = GeminiChatCompletionClient.create_result ("Error: " ++ "timeout") [.user "hi there"] ∧
    (GeminiChatCompletionClient.create
        ⟨"gemini-2.0-flash", some "key", 7/10, 4000⟩ [.user "hi there"]
        (fun _ => .response 429 ⟨none⟩ "rate limited")).finish_reason = "stop") :=
  ⟨by decide,
    gemini_create_swallows_transport_errors
      ⟨"gemini-2.0-flash", some "key", 7/10, 4000⟩ [.user "hi there"]
      429 ⟨none⟩ "rate limited" "timeout" (by decide)⟩

/-- Claim C2, counterexample: at a concrete 200 response with an empty
`candidates` list, the live `create` does not fail with a
`MalformedResponse` error; it returns a successful `CreateResult` whose
text is the fixed apology string. -/
theorem gemini_create_empty_candidates_counterexample :
    GeminiChatCompletionClient.create ⟨"gemini-2.0-flash", some "key", 7/10, 4000⟩
        [.user "hi there"] (fun _ => .response 200 ⟨some []⟩ "")
      = ⟨apology_text, "stop", ⟨2, 8⟩, false⟩ := by
  decide

/-- Claim C2 (amended): on every HTTP 200 body in which the first
candidate's first content part's text field is structurally absent
(empty or missing `candidates`, missing `content`, missing or empty
`parts`, missing `text`), the live `create` neither crashes nor returns
the malformed body's content: it returns a successful `CreateResult`
whose text is the fixed apology string. -/
theorem gemini_create_malformed_response_apology
    (client : GeminiChatCompletionClient) (messages : List LLMMessage)
    (json : GeminiResponse) (body_text : String)
    (h : text_absent json = true) :
    GeminiChatCompletionClient.create client messages
        (fun _ => .response 200 json body_text)
      = GeminiChatCompletionClient.create_result apology_text messages := by
  have hx := extract_text_of_absent json h
  simp [GeminiChatCompletionClient.create, generate_response, hx]

/-- Witness for the amended claim C2 at an empty `candidates` list. -/
theorem gemini_create_malformed_response_apology_witness :
    text_absent ⟨some []⟩ = true ∧
    GeminiChatCompletionClient.create ⟨"gemini-2.0-flash", some "key", 7/10, 4000⟩
        [.user "hi there"] (fun _ => .response 200 ⟨some []⟩ "")
      = GeminiChatCompletionClient.create_result apology_text [.user "hi there"] :=
  ⟨rfl,
    gemini_create_malformed_response_apology
      ⟨"gemini-2.0-flash", some "key", 7/10, 4000⟩ [.user "hi there"]
      ⟨some []⟩ "" rfl⟩

/-- Claim C3, counterexample: constructing the mock client with a missing
API key succeeds; the mock variant performs no construction-time API-key
validation at all. -/
theorem mock_init_missing_key_counterexample :
    MockGeminiChatCompletionClient.init "gemini-2.0-flash" none (7/10) 4000
      = .ok ⟨"gemini-2.0-flash", none, 7/10, 4000⟩ := rfl

/-- Claim C3 (amended): with a missing or empty API key, constructing the
live client fails at construction time with the configuration error,
while constructing the mock client succeeds (it never validates the
key). -/
theorem api_key_validation_live_only
    (model : String) (api_key : Option String) (temperature : ℚ) (max_tokens : Int)
    (h : pyTruthyOptStr api_key = false) :
    GeminiChatCompletionClient.init model api_key temperature max_tokens
      = .error "Google API key is required for Gemini client" ∧
    MockGeminiChatCompletionClient.init model api_key temperature max_tokens
      = .ok ⟨model, api_key, temperature, max_tokens⟩ := by
  constructor
  · simp [GeminiChatCompletionClient.init, h]
  · rfl

/-- Witness for the amended claim C3 at a `None` API key. -/
theorem api_key_validation_live_only_witness :
    pyTruthyOptStr none = false ∧
    (GeminiChatCompletionClient.init "gemini-2.0-flash" none (7/10) 4000
      = .error "Google API key is required for Gemini client" ∧
    MockGeminiChatCompletionClient.init "gemini-2.0-flash" none (7/10) 4000
      = .ok ⟨"gemini-2.0-flash", none, 7/10, 4000⟩) :=
  ⟨rfl, api_key_validation_live_only "gemini-2.0-flash" none (7/10) 4000 rfl⟩

/-- Claim C4: for every constructed client of either variant,
`model_info` reports `function_calling = true` and `json_output = true`
while `capabilities` reports `function_calling = false` and
`json_output = false`, so the two metadata surfaces disagree on both
booleans. -/
theorem model_info_capabilities_disagree (client : GeminiChatCompletionClient)
    (mock : MockGeminiChatCompletionClient) :
    (client.model_info.function_calling = true ∧
      client.model_info.json_output = true ∧
      client.capabilities.function_calling = false ∧
      client.capabilities.json_output = false) ∧
    (mock.model_info.function_calling = true ∧
      mock.model_info.json_output = true ∧
      mock.capabilities.function_calling = false ∧
      mock.capabilities.json_output = false) ∧
    client.model_info.function_calling ≠ client.capabilities.function_calling ∧
    client.model_info.json_output ≠ client.capabilities.json_output ∧
    mock.model_info.function_calling ≠ mock.capabilities.function_calling ∧
    mock.model_info.json_output ≠ mock.capabilities.json_output := by
  refine ⟨⟨rfl, rfl, rfl, rfl⟩, ⟨rfl, rfl, rfl, rfl⟩, ?_, ?_, ?_, ?_⟩ <;>
    simp [GeminiChatCompletionClient.model_info,
      GeminiChatCompletionClient.capabilities,
      MockGeminiChatCompletionClient.model_info,
      MockGeminiChatCompletionClient.capabilities]

/-- Claim C5: for a list made of exactly one System message followed by
exactly one User message, with any number of Assistant messages anywhere,
the translated payload's system instruction is the System text and its
contents list is exactly one entry holding the User text; the Assistant
messages contribute nothing. -/
theorem translate_single_system_user_turn (client : GeminiChatCompletionClient)
    (pre mid post : List LLMMessage) (s u : String)
    (hpre : ∀ m ∈ pre, isAssistantMessage m = true)
    (hmid : ∀ m ∈ mid, isAssistantMessage m = true)
    (hpost : ∀ m ∈ post, isAssistantMessage m = true) :
    (client.convert_messages
        (pre ++ [.system s] ++ mid ++ [.user u] ++ post)).systemInstruction
      = some ⟨[⟨s⟩]⟩ ∧
    (client.convert_messages
        (pre ++ [.system s] ++ mid ++ [.user u] ++ post)).contents
      = [⟨[⟨u⟩]⟩] := by
  have assistNoContent : ∀ (l : List LLMMessage),
      (∀ m ∈ l, isAssistantMessage m = true) →
      ∀ m ∈ l, producesContentEntry m = false := by
    intro l hl m hm
    have := hl m hm
    cases m <;> simp_all [isAssistantMessage, producesContentEntry]
  have assistNoSystem : ∀ (l : List LLMMessage),
      (∀ m ∈ l, isAssistantMessage m = true) →
      ∀ m ∈ l, isSystemMessage m = false := by
    intro l hl m hm
    have := hl m hm
    cases m <;> simp_all [isAssistantMessage, isSystemMessage]
  have hc : contents_of (pre ++ [.system s] ++ mid ++ [.user u] ++ post)
      = [⟨[⟨u⟩]⟩] := by
    simp [contents_of_append,
      contents_of_eq_nil pre (assistNoContent pre hpre),
      contents_of_eq_nil mid (assistNoContent mid hmid),
      contents_of_eq_nil post (assistNoContent post hpost),
      contents_of]
  have hs : first_system_text (pre ++ [.system s] ++ mid ++ [.user u] ++ post)
      = some s := by
    simp [first_system_text_append,
      first_system_text_eq_none pre (assistNoSystem pre hpre),
      first_system_text]
  rw [convert_messages_eq, hc, hs]
  simp

/-- Witness for claim C5 with one Assistant message between the System
and the User message. -/
theorem translate_single_system_user_turn_witness :
    (∀ m ∈ ([.assistant "prev"] : List LLMMessage), isAssistantMessage m = true) ∧
    ((⟨"gemini-2.0-flash", some "key", 7/10, 4000⟩ :
        GeminiChatCompletionClient).convert_messages
        ([] ++ [.system "sys"] ++ [.assistant "prev"] ++ [.user "usr"] ++ [])).systemInstruction
      = some ⟨[⟨"sys"⟩]⟩ :=
  ⟨by decide,
    (translate_single_system_user_turn
      ⟨"gemini-2.0-flash", some "key", 7/10, 4000⟩
      [] [.assistant "prev"] [] "sys" "usr"
      (by decide) (by decide) (by decide)).1⟩

/-- Claim C6: when a list holds two or more System messages, the
translated payload's system instruction is built from the first System
message in list order, and dropping every later System message leaves
the whole translated payload unchanged. -/
theorem only_first_system_message_used (client : GeminiChatCompletionClient)
    (messages : List LLMMessage) (s : String)
    (h1 : first_system_text messages = some s)
    (_h2 : 2 ≤ messages.countP fun m => isSystemMessage m) :
    (client.convert_messages messages).systemInstruction = some ⟨[⟨s⟩]⟩ ∧
    client.convert_messages messages
      = client.convert_messages (drop_later_systems messages) := by
  constructor
  · rw [convert_messages_eq]
    simp [h1]
  · rw [convert_messages_eq, convert_messages_eq]
    simp [contents_of_drop_later_systems, first_system_text_drop_later_systems]

/-- Witness for claim C6 with two System messages. -/
theorem only_first_system_message_used_witness :
    first_system_text [.system "first", .system "second", .user "usr"] = some "first" ∧
    ((⟨"gemini-2.0-flash", some "key", 7/10, 4000⟩ :
        GeminiChatCompletionClient).convert_messages
        [.system "first", .system "second", .user "usr"]).systemInstruction
      = some ⟨[⟨"first"⟩]⟩ :=
  ⟨rfl,
    (only_first_system_message_used
      ⟨"gemini-2.0-flash", some "key", 7/10, 4000⟩
      [.system "first", .system "second", .user "usr"] "first"
      rfl (by decide)).1⟩

/-- Claim C7: when no message produces a content entry (no User and no
FunctionResult message), the translated payload's contents list is the
single `"Hello"` placeholder entry; and for every input list whatsoever
the contents list is non-empty. -/
theorem contents_never_empty (client : GeminiChatCompletionClient)
    (messages : List LLMMessage)
    (h : ∀ m ∈ messages, producesContentEntry m = false) :
    (client.convert_messages messages).contents = [⟨[⟨"Hello"⟩]⟩] ∧
    ∀ messages2 : List LLMMessage,
      (client.convert_messages messages2).contents ≠ [] := by
  constructor
  · rw [convert_messages_eq]
    simp [contents_of_eq_nil messages h]
  · intro messages2
    rw [convert_messages_eq]
    by_cases hc : contents_of messages2 = [] <;> simp [hc]

/-- Witness for claim C7 with a System and an Assistant message only. -/
theorem contents_never_empty_witness :
    (∀ m ∈ ([.system "sys", .assistant "prev"] : List LLMMessage),
      producesContentEntry m = false) ∧
    ((⟨"gemini-2.0-flash", some "key", 7/10, 4000⟩ :
        GeminiChatCompletionClient).convert_messages
        [.system "sys", .assistant "prev"]).contents = [⟨[⟨"Hello"⟩]⟩] :=
  ⟨by decide,
    (contents_never_empty ⟨"gemini-2.0-flash", some "key", 7/10, 4000⟩
      [.system "sys", .assistant "prev"] (by decide)).1⟩

/-- Claim C8: with no System message in the input, a model identifier
containing `"preview"` case-insensitively receives the fixed default
system instruction, and any other model identifier yields a payload with
no system instruction at all. -/
theorem preview_default_system_instruction (client : GeminiChatCompletionClient)
    (messages : List LLMMessage)
    (h : ∀ m ∈ messages, isSystemMessage m = false) :
    (strContains (pyLower client.model) "preview" →
      (client.convert_messages messages).systemInstruction
        = some ⟨[⟨preview_default_instruction⟩]⟩) ∧
    (¬ strContains (pyLower client.model) "preview" →
      (client.convert_messages messages).systemInstruction = none) := by
  have hn := first_system_text_eq_none messages h
  constructor <;> intro hp <;> rw [convert_messages_eq] <;> simp [hn, hp]

/-- Witness for claim C8 at a preview model with an empty message list. -/
theorem preview_default_system_instruction_witness :
    strContains (pyLower "gemini-2.5-flash-preview-05-20") "preview" ∧
    ((⟨"gemini-2.5-flash-preview-05-20", some "key", 7/10, 4000⟩ :
        GeminiChatCompletionClient).convert_messages []).systemInstruction
      = some ⟨[⟨preview_default_instruction⟩]⟩ :=
  ⟨by decide,
    (preview_default_system_instruction
      ⟨"gemini-2.5-flash-preview-05-20", some "key", 7/10, 4000⟩ []
      (by simp)).1 (by decide)⟩

/-- Claim C9: both variants share the same token-count function, which is
the sum of whitespace-delimited word counts of the message contents, and
both variants compute `remaining_tokens` as
`max 0 (max_tokens - count_tokens)`, which is never negative. -/
theorem token_counting_uniform (client : GeminiChatCompletionClient)
    (mock : MockGeminiChatCompletionClient) (messages : List LLMMessage) :
    MockGeminiChatCompletionClient.count_tokens messages
      = GeminiChatCompletionClient.count_tokens messages ∧
    GeminiChatCompletionClient.count_tokens messages
      = (messages.map fun m => wordCount m.content).sum ∧
    client.remaining_tokens messages
      = max 0 (client.max_tokens
          - (GeminiChatCompletionClient.count_tokens messages : Int)) ∧
    mock.remaining_tokens messages
      = max 0 (mock.max_tokens
          - (MockGeminiChatCompletionClient.count_tokens messages : Int)) ∧
    0 ≤ client.remaining_tokens messages ∧
    0 ≤ mock.remaining_tokens messages :=
  ⟨rfl, count_tokens_eq_sum messages, rfl, rfl, le_max_left 0 _, le_max_left 0 _⟩

/-- Claim C10: whenever the most recent System-or-User message text
contains `"architecture"`, the mock `create` returns exactly the
`CreateResult` built from the canned architecture template — a fixed
function of the input messages, so every call with the same input yields
the identical result, and no network is involved (the mock is a pure
function). -/
theorem mock_architecture_branch (client : MockGeminiChatCompletionClient)
    (messages : List LLMMessage)
    (h : strContains (mock_last_message messages) "architecture") :
    client.create messages
      = MockGeminiChatCompletionClient.create_result architecture_template messages ∧
    (client.create messages).content = architecture_template := by
  have hg := generate_mock_response_architecture h
  constructor
  · simp only [MockGeminiChatCompletionClient.create, hg]
  · simp only [MockGeminiChatCompletionClient.create,
      MockGeminiChatCompletionClient.create_result, hg]

/-- Witness for claim C10 at a concrete User message mentioning
architecture. -/
theorem mock_architecture_branch_witness :
    strContains (mock_last_message [.user "show the architecture"]) "architecture" ∧
    ((⟨"gemini-2.0-flash", none, 7/10, 4000⟩ :
        MockGeminiChatCompletionClient).create
        [.user "show the architecture"]).content = architecture_template :=
  ⟨by decide,
    (mock_architecture_branch ⟨"gemini-2.0-flash", none, 7/10, 4000⟩
      [.user "show the architecture"] (by decide)).2⟩

end AutogenWorkflow
